import Mathlib

/-!
Verification of `src/phoenix-queryserver/bin/daemon.py` (a vendored copy of
`python-daemon 2.0.5` plus a custom `PidFile` class).

The Python module is embedded shallowly:

* The straight-line body of `DaemonContext.open` / `DaemonContext.close` is
  modelled as a list of OS-mutating effects ("plan") executed sequentially
  against an oracle that says which OS calls fail; execution records the trace
  of effects actually performed and stops at the first failure.
* `detach_process_context`, `PidFile`, the descriptor-closing helpers and the
  signal-map helpers are each transcribed as Lean functions over explicit
  inputs (fork results, lock outcomes, file contents, resource limits,
  platform signal tables), with Python-level exceptions and `sys.exit`
  reflected in explicit outcome types.
-/

namespace Daemon

/-- An OS-mutating side effect performed during `DaemonContext.open` /
`DaemonContext.close`.  Each constructor corresponds to one OS call (or one
bookkeeping action) in the Python source, in the granularity the source
itself uses: `change_root_directory` performs `os.chdir` then `os.chroot`;
`change_process_owner` performs `os.setgid` then `os.setuid`. -/
inductive Effect
  | chdir (dir : String)
  | chroot (dir : String)
  | setCoreLimitZero
  | setUmask (mask : Nat)
  | setgid (gid : Nat)
  | setuid (uid : Nat)
  | detach
  | installSignalHandlers
  | closeDescriptors
  | redirectStdin
  | redirectStdout
  | redirectStderr
  | pidfileEnter
  | pidfileExit
  | markOpen
  | markClosed
  | registerAtexit
  deriving DecidableEq, Repr

/-- Effects that are pure Python bookkeeping (an attribute assignment, an
`atexit.register` call) and cannot raise an OS error. -/
def Effect.infallible : Effect → Bool
  | .markOpen => true
  | .markClosed => true
  | .registerAtexit => true
  | _ => false

/-- Run a plan (a list of effects, each tagged with the error message its
enclosing Python helper would wrap an OS failure in) against a failure
oracle.  Returns the trace of effects actually performed, and `some msg` if
an effect failed (the failing effect is not performed and nothing after it
runs, matching Python exception propagation). -/
def runPlan (failsAt : Effect → Bool) : List (Effect × String) → List Effect × Option String
  | [] => ([], none)
  | (e, msg) :: rest =>
    if !e.infallible && failsAt e then ([], some msg)
    else
      let r := runPlan failsAt rest
      (e :: r.1, r.2)

/-- `change_working_directory(directory)`: `os.chdir(directory)`, failures
wrapped as `DaemonOSEnvironmentError("Unable to change working directory …")`. -/
def change_working_directory (directory : String) : List (Effect × String) :=
  [(.chdir directory, "Unable to change working directory")]

/-- `change_root_directory(directory)`: `os.chdir(directory)` then
`os.chroot(directory)`, both inside one `try` whose failures are wrapped as
`"Unable to change root directory …"`. -/
def change_root_directory (directory : String) : List (Effect × String) :=
  [(.chdir directory, "Unable to change root directory"),
   (.chroot directory, "Unable to change root directory")]

/-- `change_file_creation_mask(mask)`: `os.umask(mask)`. -/
def change_file_creation_mask (mask : Nat) : List (Effect × String) :=
  [(.setUmask mask, "Unable to change file creation mask")]

/-- `change_process_owner(uid, gid)`: `os.setgid(gid)` then `os.setuid(uid)`,
in that order, inside one `try`. -/
def change_process_owner (uid gid : Nat) : List (Effect × String) :=
  [(.setgid gid, "Unable to change process owner"),
   (.setuid uid, "Unable to change process owner")]

/-- `prevent_core_dump()`: probe `RLIMIT_CORE` then set the core limit to
`(0, 0)`. -/
def prevent_core_dump : List (Effect × String) :=
  [(.setCoreLimitZero, "System does not support RLIMIT_CORE resource limit")]

/-- The configuration and runtime state of a `DaemonContext` instance, with
the attributes the lifecycle methods read.  `has_pidfile` abstracts
`self.pidfile is not None`; `is_open` is the `_is_open` flag. -/
structure DaemonContext where
  chroot_directory : Option String
  working_directory : String
  umask : Nat
  uid : Nat
  gid : Nat
  prevent_core : Bool
  detach_process : Bool
  has_pidfile : Bool
  is_open : Bool
  deriving DecidableEq, Repr

/-- The sequence of effects the body of `DaemonContext.open` performs after
the `is_open` guard, transcribed statement by statement from the source. -/
def DaemonContext.openPlan (c : DaemonContext) : List (Effect × String) :=
  (match c.chroot_directory with
   | some d => change_root_directory d
   | none => []) ++
  (if c.prevent_core then prevent_core_dump else []) ++
  change_file_creation_mask c.umask ++
  change_working_directory c.working_directory ++
  change_process_owner c.uid c.gid ++
  (if c.detach_process then [(.detach, "Failed fork")] else []) ++
  [(.installSignalHandlers, "signal.signal failed")] ++
  [(.closeDescriptors, "Failed to close file descriptor")] ++
  [(.redirectStdin, "redirect_stream failed"),
   (.redirectStdout, "redirect_stream failed"),
   (.redirectStderr, "redirect_stream failed")] ++
  (if c.has_pidfile then [(.pidfileEnter, "pidfile enter failed")] else []) ++
  [(.markOpen, ""), (.registerAtexit, "")]

/-- `DaemonContext.open()`: return immediately when already open, otherwise
run the open plan; on success the instance is marked open.  The result is
the updated instance, the trace of effects performed, and the error (if
any). -/
def DaemonContext.activate (c : DaemonContext) (failsAt : Effect → Bool) :
    DaemonContext × List Effect × Option String :=
  if c.is_open then (c, [], none)
  else
    match runPlan failsAt c.openPlan with
    | (tr, none) => ({ c with is_open := true }, tr, none)
    | (tr, some msg) => (c, tr, some msg)

/-- The sequence of effects the body of `DaemonContext.close` performs after
the `is_open` guard: exit the pidfile context manager when one is
configured, then clear the flag. -/
def DaemonContext.closePlan (c : DaemonContext) : List (Effect × String) :=
  (if c.has_pidfile then [(.pidfileExit, "pidfile exit failed")] else []) ++
  [(.markClosed, "")]

/-- `DaemonContext.close()`: return immediately when not open, otherwise exit
the pidfile scope (when configured) and mark the instance closed. -/
def DaemonContext.deactivate (c : DaemonContext) (failsAt : Effect → Bool) :
    DaemonContext × List Effect × Option String :=
  if !c.is_open then (c, [], none)
  else
    match runPlan failsAt c.closePlan with
    | (tr, none) => ({ c with is_open := false }, tr, none)
    | (tr, some msg) => (c, tr, some msg)

/-! ### The detach protocol (`detach_process_context`) -/

/-- The result of one `os.fork()` call, as seen by the process at hand:
`parent pid` (positive return value), `child` (zero), or an `OSError`
carrying errno and strerror. -/
inductive ForkOutcome
  | parent (pid : Nat)
  | child
  | failed (errnum : Nat) (strerror : String)
  deriving DecidableEq, Repr

/-- What a process running (part of) the detach protocol ends up doing. -/
inductive BranchResult
  | continued
  | exited (status : Nat) (sleeps : Nat)
  | hung
  | detachError (msg : String)
  | attrError
  deriving DecidableEq, Repr

/-- The `while not os.path.exists(pidfile.path): time.sleep(0.1)` loop.
`existsAt k` says whether the path exists at the k-th check; the fuel bounds
how many checks we model.  Returns `some k` when the loop finishes after `k`
sleeps, `none` when the path never appears within the fuel. -/
def pollLoop (existsAt : Nat → Bool) : Nat → Nat → Option Nat
  | 0, _ => none
  | fuel + 1, k => if existsAt k then some k else pollLoop existsAt fuel (k + 1)

/-- `fork_then_exit_parent(error_message)` inside `detach_process_context`:

* fork failure raises `DaemonProcessDetachError` with the message
  `"{message}: [{errno}] {strerror}"`;
* in the parent branch (`pid > 0`) the code evaluates `pidfile.path`
  (an `AttributeError` when `pidfile` is `None`, uncaught since only
  `OSError` is handled), polls for that path, then calls `os._exit(0)`;
* in the child branch (`pid == 0`) the helper simply returns. -/
def fork_then_exit_parent (error_message : String) (pidfile : Option String)
    (fork : ForkOutcome) (existsAt : Nat → Bool) (fuel : Nat) : BranchResult :=
  match fork with
  | .failed errnum strerror =>
      .detachError (error_message ++ ": [" ++ toString errnum ++ "] " ++ strerror)
  | .child => .continued
  | .parent _ =>
      match pidfile with
      | none => .attrError
      | some _ =>
          match pollLoop existsAt fuel 0 with
          | some k => .exited 0 k
          | none => .hung

/-- `detach_process_context(pidfile)`: first fork (parent exits via the
rendezvous), `os.setsid()` in the child, second fork (parent exits the same
way), and the second child continues as the daemon.  The two `existsAt`
arguments give the filesystem's answer at the time of each parent's poll
loop. -/
def detach_process_context (pidfile : Option String) (fork1 fork2 : ForkOutcome)
    (existsAt1 existsAt2 : Nat → Bool) (fuel : Nat) : BranchResult :=
  match fork_then_exit_parent "Failed first fork" pidfile fork1 existsAt1 fuel with
  | .continued =>
      fork_then_exit_parent "Failed second fork" pidfile fork2 existsAt2 fuel
  | r => r

/-! ### `PidFile` -/

/-- A Python-level computation outcome: a normal value, a `sys.exit(msg)`
(`SystemExit` with the given argument), or an uncaught exception. -/
inductive PyOutcome (α : Type)
  | ok (val : α)
  | systemExit (msg : Option String)
  | raised (msg : String)
  deriving DecidableEq, Repr

/-- An open file handle: its current content and the handle's position.
Content is a list of characters (the file is a text file). -/
structure OpenFile where
  content : List Char
  pos : Nat
  deriving DecidableEq, Repr

/-- `file.seek(n)`. -/
def fileSeek (f : OpenFile) (n : Nat) : OpenFile := { f with pos := n }

/-- `file.truncate()`: truncate to the current position. -/
def fileTruncate (f : OpenFile) : OpenFile :=
  { f with content := f.content.take f.pos }

/-- `file.write(s)` on a file opened in append mode (`'a+'`): the text is
appended at end of file. -/
def fileWriteAppend (f : OpenFile) (s : String) : OpenFile :=
  { content := f.content ++ s.data, pos := (f.content ++ s.data).length }

/-- `PidFile.__init__(path, enter_err_msg)`: open the path with mode `'a+'`
(creating it when absent), take the exclusive non-blocking test lock,
release it, close the handle and `os.remove` the path; when the lock cannot
be acquired (`IOError`), `sys.exit(enter_err_msg)`.  The argument
`pathContent` is the file's content before the call (`none` when the path
does not exist); the returned value is the content after the call. -/
def PidFile.construct (enter_err_msg : Option String) (lockOk : Bool)
    (pathContent : Option (List Char)) : PyOutcome (Option (List Char)) :=
  let _opened : OpenFile :=
    { content := (match pathContent with | some c => c | none => []), pos := 0 }
  if lockOk then
    .ok none
  else
    .systemExit enter_err_msg

/-- `PidFile.__enter__()`: open the path with `'a+'`, take the exclusive
non-blocking lock (`sys.exit(enter_err_msg)` on `IOError`), then `seek(0)`,
`truncate()`, `write(str(os.getpid()))`, `flush()`, `seek(0)`.  Returns the
path's content after the call. -/
def PidFile.scopeEnter (pid : Nat) (enter_err_msg : Option String) (lockOk : Bool)
    (pathContent : Option (List Char)) : PyOutcome (Option (List Char)) :=
  let f : OpenFile :=
    { content := (match pathContent with | some c => c | none => []), pos := 0 }
  if lockOk then
    let f := fileSeek f 0
    let f := fileTruncate f
    let f := fileWriteAppend f (toString pid)
    let f := fileSeek f 0
    .ok (some f.content)
  else
    .systemExit enter_err_msg

/-- `os.remove(path)`: delete the path, raising `OSError` when it does not
exist. -/
def osRemove (pathContent : Option (List Char)) : PyOutcome (Option (List Char)) :=
  match pathContent with
  | some _ => .ok none
  | none => .raised "No such file or directory"

/-- `PidFile.__exit__`: close the handle (an `IOError` with errno other than
9 is re-raised; errno 9, bad file descriptor, is suppressed), then
`os.remove(self.path)`.  `closeErrno` is `none` when the close succeeds. -/
def PidFile.scopeExit (closeErrno : Option Nat)
    (pathContent : Option (List Char)) : PyOutcome (Option (List Char)) :=
  match closeErrno with
  | some e =>
      if e ≠ 9 then .raised ("IOError errno " ++ toString e)
      else osRemove pathContent
  | none => osRemove pathContent

/-- `int(text)` / reading the pidfile back: Python's `int` accepts a string
of decimal digits.  Modelled with `String.toNat?`. -/
def readPidContent (content : List Char) : Option Nat :=
  (String.mk content).toNat?

/-! ### Descriptor closure -/

/-- An element that can appear in `files_preserve` or as a replacement
standard stream: a plain integer descriptor, a file-like object whose
`fileno()` returns a descriptor, or a file-like object whose `fileno()`
raises `ValueError` (no underlying descriptor). -/
inductive FileItem
  | fd (n : Nat)
  | fileWith (n : Nat)
  | fileWithout
  deriving DecidableEq, Repr

/-- `hasattr(item, "fileno")`: true for file-like objects, false for plain
integers. -/
def hasFilenoAttr : FileItem → Bool
  | .fd _ => false
  | .fileWith _ => true
  | .fileWithout => true

/-- `_get_file_descriptor(obj)`: the descriptor when the object has a
working `fileno()`, otherwise `None` (also for plain integers, which have
no `fileno` attribute). -/
def _get_file_descriptor : FileItem → Option Nat
  | .fd _ => none
  | .fileWith n => some n
  | .fileWithout => none

/-- The numeric value an item contributes when added to the exclude set
verbatim.  A plain integer contributes itself; a file-like object added
verbatim is not an integer and can never equal a descriptor number in the
closing loop's membership test, so it contributes no numeric member. -/
def verbatimDescriptor : FileItem → Option Nat
  | .fd n => some n
  | .fileWith _ => none
  | .fileWithout => none

/-- One iteration of the exclude-set loop: skip `None`, add
`_get_file_descriptor(item)` when it is not `None`, otherwise add the item
verbatim (only a plain integer contributes a numeric member that way). -/
def addExcludeItem (acc : List Nat) (o : Option FileItem) : List Nat :=
  match o with
  | none => acc
  | some item =>
      match _get_file_descriptor item with
      | some n => acc ++ [n]
      | none =>
          match verbatimDescriptor item with
          | some n => acc ++ [n]
          | none => acc

/-- `DaemonContext._get_exclude_file_descriptors()`: start from
`files_preserve` (or `[]` when `None`), extend with those of
`stdin`/`stdout`/`stderr` that have a `fileno` attribute, then fold
`addExcludeItem` over the items.  The result here is the list of numeric
members of the resulting set. -/
def _get_exclude_file_descriptors (files_preserve : Option (List (Option FileItem)))
    (stdin stdout stderr : Option FileItem) : List Nat :=
  let base := match files_preserve with | none => [] | some l => l
  let streams := [stdin, stdout, stderr].filterMap (fun o =>
    match o with
    | some item => if hasFilenoAttr item then some (some item) else none
    | none => none)
  (base ++ streams).foldl addExcludeItem []

/-- The fallback maximum number of descriptors, `MAXFD = 2048`. -/
def MAXFD : Nat := 2048

/-- `get_maximum_file_descriptors()`: the hard `RLIMIT_NOFILE` limit, or
`MAXFD` when that limit is `RLIM_INFINITY` (modelled as `none`). -/
def get_maximum_file_descriptors (hardLimit : Option Nat) : Nat :=
  match hardLimit with
  | some n => n
  | none => MAXFD

/-- The result of one `os.close(fd)` call: success, `EBADF` (descriptor not
open), or some other `EnvironmentError` with a message. -/
inductive CloseResult
  | closed
  | badDescriptor
  | failure (msg : String)
  deriving DecidableEq, Repr

/-- The loop body of `close_all_open_files` over an explicit descriptor
list: skip excluded descriptors, call `close_file_descriptor_if_open` on the
rest (`EBADF` suppressed, other errors raised as
`DaemonOSEnvironmentError`, aborting the loop).  Returns the list of
descriptors on which `os.close` was invoked, and the error if one was
raised. -/
def closeLoop (res : Nat → CloseResult) (exclude : List Nat) :
    List Nat → List Nat × Option String
  | [] => ([], none)
  | fd :: rest =>
    if fd ∈ exclude then closeLoop res exclude rest
    else
      match res fd with
      | .failure msg =>
          ([fd], some ("Failed to close file descriptor " ++ toString fd ++
            " (" ++ msg ++ ")"))
      | _ =>
          let r := closeLoop res exclude rest
          (fd :: r.1, r.2)

/-- `close_all_open_files(exclude)`: iterate `reversed(range(maxfd))` with
`maxfd = get_maximum_file_descriptors()`. -/
def close_all_open_files (res : Nat → CloseResult) (hardLimit : Option Nat)
    (exclude : List Nat) : List Nat × Option String :=
  closeLoop res exclude (List.range (get_maximum_file_descriptors hardLimit)).reverse

/-! ### Signal maps -/

/-- The `signal` module of the running platform: which signal names are
defined, and their numbers.  `lookup` is `getattr`; presence is
`hasattr`. -/
abbrev SignalPlatform := List (String × Nat)

/-- The literal `name_map` of `make_default_signal_map`: a signal-name →
target table, where `none` is Python `None` (ignore) and a string names an
attribute of the context. -/
def default_name_map : List (String × Option String) :=
  [("SIGTSTP", none), ("SIGTTIN", none), ("SIGTTOU", none), ("SIGTERM", some "terminate")]

/-- `make_default_signal_map()`: keep the entries of `name_map` whose signal
name the platform defines (`hasattr(signal, name)`), keyed by
`getattr(signal, name)`. -/
def make_default_signal_map (platform : SignalPlatform) : List (Nat × Option String) :=
  default_name_map.filterMap (fun p =>
    match platform.lookup p.1 with
    | some num => some (num, p.2)
    | none => none)

/-- The value installed for a signal: `signal.SIG_IGN`, or an attribute of
the context looked up by name at installation time, or a direct handler
object. -/
inductive Handler
  | sigIgn
  | contextAttr (name : String)
  deriving DecidableEq, Repr

/-- `DaemonContext._make_signal_handler(target)`: `None` becomes
`SIG_IGN`; a string becomes `getattr(self, name)`. -/
def _make_signal_handler (target : Option String) : Handler :=
  match target with
  | none => .sigIgn
  | some name => .contextAttr name

/-- `DaemonContext._make_signal_handler_map()`: resolve every target in the
instance's signal map. -/
def _make_signal_handler_map (signal_map : List (Nat × Option String)) :
    List (Nat × Handler) :=
  signal_map.map (fun p => (p.1, _make_signal_handler p.2))

/-- `DaemonContext.terminate(signal_number, stack_frame)`: raise
`SystemExit("Terminating on signal {signal_number!r}")`. -/
def DaemonContext.terminate (signal_number : Nat) : PyOutcome Unit :=
  .systemExit (some ("Terminating on signal " ++ toString signal_number))

/-! ### Exception chaining -/

/-- An arbitrary Python exception already being handled when a new error is
constructed. -/
structure PyBaseExc where
  desc : String
  deriving DecidableEq, Repr

/-- Which concrete subclass of `DaemonError` is being constructed. -/
inductive DaemonErrorKind
  | osEnvironment
  | processDetach
  deriving DecidableEq, Repr

/-- A constructed `DaemonError` value with the chaining attributes `__cause__`
and `__context__`. -/
structure DaemonErrorValue where
  kind : DaemonErrorKind
  args : List String
  cause : Option PyBaseExc
  contextExc : Option PyBaseExc
  deriving DecidableEq, Repr

/-- `_chain_exception_from_existing_exception_context(exc, as_cause)`:
read the exception currently being handled (`sys.exc_info()`) and store it
in `exc.__cause__` when `as_cause`, else in `exc.__context__`. -/
def _chain_exception_from_existing_exception_context (currentExc : Option PyBaseExc)
    (as_cause : Bool) (e : DaemonErrorValue) : DaemonErrorValue :=
  if as_cause then { e with cause := currentExc }
  else { e with contextExc := currentExc }

/-- `DaemonError.__init__`: every `DaemonError` (hence every
`DaemonOSEnvironmentError` and `DaemonProcessDetachError`) first calls
`_chain_from_context`, which chains the currently-handled exception as the
new error's cause (`as_cause=True`). -/
def mkDaemonError (kind : DaemonErrorKind) (args : List String)
    (currentExc : Option PyBaseExc) : DaemonErrorValue :=
  _chain_exception_from_existing_exception_context currentExc true
    { kind := kind, args := args, cause := none, contextExc := none }

/-! ### Concrete configurations used by witnesses -/

/-- The failure oracle under which every OS call succeeds. -/
def noFailure : Effect → Bool := fun _ => false

/-- A closed daemon context with every optional feature switched on. -/
def fullContext : DaemonContext :=
  { chroot_directory := some "/jail"
    working_directory := "/"
    umask := 18
    uid := 1000
    gid := 1000
    prevent_core := true
    detach_process := true
    has_pidfile := true
    is_open := false }

/-- The close-result oracle under which every descriptor closes normally. -/
def allClose : Nat → CloseResult := fun _ => CloseResult.closed

/-- The close-result oracle under which every close reports `EBADF`. -/
def allBadf : Nat → CloseResult := fun _ => CloseResult.badDescriptor

/-- The exclude set of the spec's descriptor-preservation scenario:
preserve-list `{3, 7}`, replacement streams backed by descriptors
`{10, 11, 12}`. -/
def exampleExclude : List Nat :=
  _get_exclude_file_descriptors
    (some [some (FileItem.fd 3), some (FileItem.fd 7)])
    (some (FileItem.fileWith 10)) (some (FileItem.fileWith 11))
    (some (FileItem.fileWith 12))

/-- The number of decimal digits of a natural number (at least one). -/
def digitLen (n : Nat) : Nat :=
  if h : n < 10 then 1 else digitLen (n / 10) + 1
termination_by n
decreasing_by
  exact Nat.div_lt_self (by omega) (by omega)

/-! ### Execution lemmas for `runPlan` -/

theorem runPlan_noFailure (xs : List (Effect × String)) :
    runPlan noFailure xs = (xs.map Prod.fst, none) := by
  induction xs with
  | nil => rfl
  | cons x rest ih =>
      obtain ⟨e, m⟩ := x
      simp [runPlan, noFailure, ih]

theorem runPlan_fst_isPrefix (f : Effect → Bool) (xs : List (Effect × String)) :
    ∃ t, (runPlan f xs).1 ++ t = xs.map Prod.fst := by
  induction xs with
  | nil => exact ⟨[], rfl⟩
  | cons x rest ih =>
      obtain ⟨e, m⟩ := x
      obtain ⟨t, ht⟩ := ih
      by_cases hf : (!e.infallible && f e) = true
      · exact ⟨e :: rest.map Prod.fst, by simp [runPlan, hf]⟩
      · exact ⟨t, by simp [runPlan, hf, ht]⟩

theorem activate_trace (c : DaemonContext) (h : c.is_open = false) (f : Effect → Bool) :
    (c.activate f).2.1 = (runPlan f c.openPlan).1 := by
  unfold DaemonContext.activate
  rw [h]
  simp only [Bool.false_eq_true, if_false]
  rcases hr : runPlan f c.openPlan with ⟨tr, err⟩
  cases err <;> simp

/-- Claim C1: for every `DaemonContext` whose `is_open` is false, activation
performs its OS-mutating side effects strictly in this order — if a chroot
path is set, chdir to it then chroot; if prevent-core is set, zero the core
limit; set the umask; chdir to the working directory; setgid strictly
before setuid; the detach protocol when enabled; signal-handler
installation; descriptor closure; the three stream redirections; Lock-Guard
entry when configured; marking the state open; atexit registration — and a
failure at any step aborts the sequence before the later steps run (every
trace is a prefix of the complete ordered sequence). -/
theorem C1_open_effect_order (c : DaemonContext) (h : c.is_open = false) :
    (c.activate noFailure).2.1 =
      (match c.chroot_directory with
       | some d => [Effect.chdir d, Effect.chroot d]
       | none => []) ++
      (if c.prevent_core then [Effect.setCoreLimitZero] else []) ++
      [Effect.setUmask c.umask] ++
      [Effect.chdir c.working_directory] ++
      [Effect.setgid c.gid, Effect.setuid c.uid] ++
      (if c.detach_process then [Effect.detach] else []) ++
      [Effect.installSignalHandlers] ++
      [Effect.closeDescriptors] ++
      [Effect.redirectStdin, Effect.redirectStdout, Effect.redirectStderr] ++
      (if c.has_pidfile then [Effect.pidfileEnter] else []) ++
      [Effect.markOpen, Effect.registerAtexit] ∧
    ∀ failsAt : Effect → Bool,
      ∃ t, (c.activate failsAt).2.1 ++ t = (c.activate noFailure).2.1 := by
  have hfull : (c.activate noFailure).2.1 = (c.openPlan).map Prod.fst := by
    rw [activate_trace c h, runPlan_noFailure]
  constructor
  · rw [hfull]
    unfold DaemonContext.openPlan change_root_directory prevent_core_dump
      change_file_creation_mask change_working_directory change_process_owner
    cases c.chroot_directory <;>
      cases c.prevent_core <;>
        cases c.detach_process <;>
          cases c.has_pidfile <;> simp
  · intro f
    rw [hfull, activate_trace c h f]
    exact runPlan_fst_isPrefix f c.openPlan

/-- Witness for C1: a fully configured closed context, evaluated. -/
theorem C1_open_effect_order_witness :
    fullContext.is_open = false ∧
    (fullContext.activate noFailure).2.1 =
      [Effect.chdir "/jail", Effect.chroot "/jail", Effect.setCoreLimitZero,
       Effect.setUmask 18, Effect.chdir "/", Effect.setgid 1000,
       Effect.setuid 1000, Effect.detach, Effect.installSignalHandlers,
       Effect.closeDescriptors, Effect.redirectStdin, Effect.redirectStdout,
       Effect.redirectStderr, Effect.pidfileEnter, Effect.markOpen,
       Effect.registerAtexit] := by
  refine ⟨rfl, ?_⟩
  rw [(C1_open_effect_order fullContext rfl).1]
  decide

/-- Claim C2: `is_open` transitions only closed→open via activation and
open→closed via deactivation; activating while open and deactivating while
closed return immediately with no OS-mutating step, so a second activation
performs the mutating sequence exactly once and a second deactivation (or
the exit hook, which calls the same `close`) releases the Lock-Guard
exactly once. -/
theorem C2_lifecycle_idempotent (c : DaemonContext) (f : Effect → Bool) :
    (c.is_open = true → c.activate f = (c, [], none)) ∧
    (c.is_open = false → c.deactivate f = (c, [], none)) ∧
    ((c.activate f).1 = c ∨
      (c.is_open = false ∧ (c.activate f).1 = { c with is_open := true })) ∧
    ((c.deactivate f).1 = c ∨
      (c.is_open = true ∧ (c.deactivate f).1 = { c with is_open := false })) ∧
    (c.is_open = false →
      (c.activate noFailure).1.is_open = true ∧
      (c.activate noFailure).2.1 = (c.openPlan).map Prod.fst ∧
      (c.activate noFailure).1.activate noFailure =
        ((c.activate noFailure).1, [], none)) ∧
    (c.is_open = true →
      (c.deactivate noFailure).1.is_open = false ∧
      ((c.deactivate noFailure).2.1.count Effect.pidfileExit =
        if c.has_pidfile then 1 else 0) ∧
      (c.deactivate noFailure).1.deactivate noFailure =
        ((c.deactivate noFailure).1, [], none)) := by
  refine ⟨?_, ?_, ?_, ?_, ?_, ?_⟩
  · intro h
    simp [DaemonContext.activate, h]
  · intro h
    simp [DaemonContext.deactivate, h]
  · by_cases hio : c.is_open
    · left
      simp [DaemonContext.activate, hio]
    · rcases hr : runPlan f c.openPlan with ⟨tr, err⟩
      cases err with
      | none =>
          right
          exact ⟨by simpa using hio, by simp [DaemonContext.activate, hio, hr]⟩
      | some m =>
          left
          simp [DaemonContext.activate, hio, hr]
  · by_cases hio : c.is_open
    · rcases hr : runPlan f c.closePlan with ⟨tr, err⟩
      cases err with
      | none =>
          right
          exact ⟨hio, by simp [DaemonContext.deactivate, hio, hr]⟩
      | some m =>
          left
          simp [DaemonContext.deactivate, hio, hr]
    · left
      simp [DaemonContext.deactivate, hio]
  · intro h
    have hr := runPlan_noFailure c.openPlan
    refine ⟨?_, ?_, ?_⟩ <;>
      simp [DaemonContext.activate, h, hr]
  · intro h
    have hr := runPlan_noFailure c.closePlan
    refine ⟨?_, ?_, ?_⟩
    · simp [DaemonContext.deactivate, h, hr]
    · simp only [DaemonContext.deactivate, h]
      rw [hr]
      cases hpf : c.has_pidfile <;> simp [DaemonContext.closePlan, hpf]
    · simp [DaemonContext.deactivate, h, hr]

/-- Witness for C2: deactivating a closed context is a no-op. -/
theorem C2_lifecycle_idempotent_witness :
    fullContext.deactivate noFailure = (fullContext, [], none) :=
  (C2_lifecycle_idempotent fullContext noFailure).2.1 rfl

/-- Counterexample to C3 as stated: both forks go through the same
`fork_then_exit_parent` helper, so the *second* parent branch also runs the
poll loop.  With a pidfile that appears only at the second check, the second
parent sleeps once before exiting — it does not exit immediately without
polling (and with a pidfile that never appears it polls forever). -/
theorem C3_second_parent_polls_counterexample :
    fork_then_exit_parent "Failed second fork" (some "/run/daemon.pid")
        (ForkOutcome.parent 7) (fun k => decide (1 ≤ k)) 5 =
      BranchResult.exited 0 1 ∧
    fork_then_exit_parent "Failed second fork" (some "/run/daemon.pid")
        (ForkOutcome.parent 7) (fun k => decide (1 ≤ k)) 5 ≠
      BranchResult.exited 0 0 ∧
    fork_then_exit_parent "Failed second fork" (some "/run/daemon.pid")
        (ForkOutcome.parent 7) (fun _ => false) 5 =
      BranchResult.hung := by
  refine ⟨by decide, by decide, by decide⟩

/-- Claim C3 (amended): in the detach protocol, after each of the two forks
the parent branch polls at a fixed interval for the existence of the
Lock-Guard's path and exits with status 0 once it appears — the second
parent branch runs the same rendezvous loop as the first, rather than
exiting immediately — while each child branch continues, the second child
becoming the final daemon process. -/
theorem C3_detach_parent_rendezvous (msg path : String) (pid : Nat)
    (existsAt : Nat → Bool) (fuel k : Nat)
    (hpoll : pollLoop existsAt fuel 0 = some k) :
    fork_then_exit_parent msg (some path) (ForkOutcome.parent pid) existsAt fuel =
      BranchResult.exited 0 k ∧
    fork_then_exit_parent msg (some path) ForkOutcome.child existsAt fuel =
      BranchResult.continued ∧
    (∀ existsAt2 : Nat → Bool,
      detach_process_context (some path) ForkOutcome.child ForkOutcome.child
        existsAt existsAt2 fuel = BranchResult.continued) := by
  refine ⟨?_, rfl, fun existsAt2 => rfl⟩
  simp [fork_then_exit_parent, hpoll]

/-- Witness for the amended C3: the path appears at the first check, so the
parent exits with status 0 after zero sleeps. -/
theorem C3_detach_parent_rendezvous_witness :
    pollLoop (fun _ => true) 3 0 = some 0 ∧
    fork_then_exit_parent "Failed first fork" (some "/run/daemon.pid")
        (ForkOutcome.parent 41) (fun _ => true) 3 =
      BranchResult.exited 0 0 :=
  ⟨by decide,
   (C3_detach_parent_rendezvous "Failed first fork" "/run/daemon.pid" 41
      (fun _ => true) 3 0 (by decide)).1⟩

/-- Claim C9: with detach enabled and no Lock-Guard configured
(`pidfile is None`), the parent branch of the detach protocol evaluates
`pidfile.path` on `None` and fails with an `AttributeError` (uncaught,
since only `OSError` is handled) instead of exiting cleanly; the
whole protocol run from the original process therefore ends in the
attribute error. -/
theorem C9_detach_requires_pidfile (msg : String) (pid : Nat)
    (existsAt : Nat → Bool) (fuel : Nat) :
    fork_then_exit_parent msg none (ForkOutcome.parent pid) existsAt fuel =
      BranchResult.attrError ∧
    (∀ (fork2 : ForkOutcome) (existsAt2 : Nat → Bool),
      detach_process_context none (ForkOutcome.parent pid) fork2
        existsAt existsAt2 fuel = BranchResult.attrError) ∧
    fork_then_exit_parent msg none (ForkOutcome.parent pid) existsAt fuel ≠
      BranchResult.exited 0 0 := by
  refine ⟨rfl, fun fork2 existsAt2 => rfl, by simp [fork_then_exit_parent]⟩

/-- Witness for C9: a concrete parent branch with no pidfile ends in the
attribute error. -/
theorem C9_detach_requires_pidfile_witness :
    fork_then_exit_parent "Failed first fork" none (ForkOutcome.parent 3)
        (fun _ => true) 2 = BranchResult.attrError :=
  (C9_detach_requires_pidfile "Failed first fork" 3 (fun _ => true) 2).1

/-! ### Decimal representation round-trip (for the pidfile content) -/

theorem digitLen_of_lt (n : Nat) (h : n < 10) : digitLen n = 1 := by
  unfold digitLen
  simp [h]

theorem digitLen_of_ge (n : Nat) (h : ¬ n < 10) :
    digitLen n = digitLen (n / 10) + 1 := by
  conv_lhs => unfold digitLen
  simp [h]

theorem digitChar_toNat_sub (d : Nat) (h : d < 10) :
    (Nat.digitChar d).toNat - Char.toNat (Char.ofNat 48) = d := by
  interval_cases d <;> decide

theorem digitChar_isDigit (d : Nat) (h : d < 10) :
    (Nat.digitChar d).isDigit = true := by
  interval_cases d <;> decide

theorem toDigitsCore_acc (fuel : Nat) :
    ∀ (n : Nat) (ds : List Char),
      Nat.toDigitsCore 10 fuel n ds = Nat.toDigitsCore 10 fuel n [] ++ ds := by
  induction fuel with
  | zero =>
      intro n ds
      simp [Nat.toDigitsCore]
  | succ fuel ih =>
      intro n ds
      simp only [Nat.toDigitsCore]
      by_cases h : n / 10 = 0
      · simp [h]
      · simp only [h, if_false]
        rw [ih (n / 10) (Nat.digitChar (n % 10) :: ds),
          ih (n / 10) [Nat.digitChar (n % 10)]]
        simp

theorem toDigitsCore_foldl (fuel : Nat) :
    ∀ n : Nat, n < fuel → ∀ a : Nat,
      List.foldl (fun m c => m * 10 + (c.toNat - Char.toNat (Char.ofNat 48))) a
          (Nat.toDigitsCore 10 fuel n []) =
        a * 10 ^ digitLen n + n := by
  induction fuel with
  | zero =>
      intro n hn
      exact absurd hn (Nat.not_lt_zero n)
  | succ fuel ih =>
      intro n hn a
      simp only [Nat.toDigitsCore]
      by_cases h : n / 10 = 0
      · have h10 : n < 10 := by omega
        have hmod : n % 10 = n := Nat.mod_eq_of_lt h10
        simp only [h, if_true, List.foldl_cons, List.foldl_nil,
          digitChar_toNat_sub (n % 10) (Nat.mod_lt n (by omega))]
        rw [digitLen_of_lt n h10, hmod]
        ring
      · have h10 : ¬ n < 10 := by omega
        have hrec : n / 10 < fuel := by omega
        simp only [h, if_false]
        rw [toDigitsCore_acc, List.foldl_append, ih (n / 10) hrec a]
        simp only [List.foldl_cons, List.foldl_nil,
          digitChar_toNat_sub (n % 10) (Nat.mod_lt n (by omega))]
        rw [digitLen_of_ge n h10, pow_succ]
        have hdm : 10 * (n / 10) + n % 10 = n := Nat.div_add_mod n 10
        calc (a * 10 ^ digitLen (n / 10) + n / 10) * 10 + n % 10 =
              a * (10 ^ digitLen (n / 10) * 10) + (10 * (n / 10) + n % 10) := by ring
          _ = a * (10 ^ digitLen (n / 10) * 10) + n := by rw [hdm]

theorem toDigitsCore_all_digits (fuel : Nat) :
    ∀ (n : Nat) (ds : List Char), (∀ c ∈ ds, c.isDigit = true) →
      ∀ c ∈ Nat.toDigitsCore 10 fuel n ds, c.isDigit = true := by
  induction fuel with
  | zero =>
      intro n ds hds
      simpa [Nat.toDigitsCore] using hds
  | succ fuel ih =>
      intro n ds hds
      simp only [Nat.toDigitsCore]
      have hd : (Nat.digitChar (n % 10)).isDigit = true :=
        digitChar_isDigit (n % 10) (Nat.mod_lt n (by omega))
      by_cases h : n / 10 = 0
      · simp only [h, if_true]
        intro c hc
        rcases List.mem_cons.mp hc with hc | hc
        · exact hc ▸ hd
        · exact hds c hc
      · simp only [h, if_false]
        refine ih (n / 10) (Nat.digitChar (n % 10) :: ds) ?_
        intro c hc
        rcases List.mem_cons.mp hc with hc | hc
        · exact hc ▸ hd
        · exact hds c hc

theorem toDigitsCore_ne_nil (fuel : Nat) :
    ∀ (n : Nat) (ds : List Char), Nat.toDigitsCore 10 (fuel + 1) n ds ≠ [] := by
  induction fuel with
  | zero =>
      intro n ds
      simp only [Nat.toDigitsCore]
      by_cases h : n / 10 = 0 <;> simp [h, Nat.toDigitsCore]
  | succ fuel ih =>
      intro n ds
      simp only [Nat.toDigitsCore]
      by_cases h : n / 10 = 0
      · simp [h]
      · simp only [h, if_false]
        exact ih (n / 10) (Nat.digitChar (n % 10) :: ds)

theorem toString_nat_toNat? (n : Nat) : (toString n).toNat? = some n := by
  show (Nat.repr n).toNat? = some n
  have hL : Nat.repr n = (Nat.toDigitsCore 10 (n + 1) n []).asString := rfl
  set L := Nat.toDigitsCore 10 (n + 1) n [] with hLdef
  have hdata : (L.asString).data = L := rfl
  have hnonempty : L ≠ [] := toDigitsCore_ne_nil n n []
  have hdigits : ∀ c ∈ L, c.isDigit = true :=
    toDigitsCore_all_digits (n + 1) n [] (by intro c hc; cases hc)
  have hisEmpty : (L.asString).isEmpty = false := by
    rw [Bool.eq_false_iff]
    intro hcontra
    have : L.asString = "" := (String.isEmpty_iff (L.asString)).mp hcontra
    exact hnonempty (congrArg String.data this)
  have hall : (L.asString).all (·.isDigit) = true := by
    rw [String.all_eq, hdata]
    exact List.all_eq_true.mpr hdigits
  have hfoldl :
      (L.asString).foldl (fun m c => m * 10 + (c.toNat - Char.toNat (Char.ofNat 48))) 0 = n := by
    rw [String.foldl_eq, hdata, hLdef]
    rw [toDigitsCore_foldl (n + 1) n (Nat.lt_succ_self n) 0]
    simp
  rw [hL]
  simp only [String.toNat?, String.isNat, hisEmpty, hall, Bool.not_false, Bool.and_self,
    if_true]
  exact congrArg some hfoldl

/-- Claim C4: entering a `PidFile`'s scope leaves the file at its path
containing exactly the decimal process id of the current process and
nothing else (previous content truncated), so reading the full contents
back as an integer yields the process id; exiting the scope closes the
handle and deletes the path, after which the path no longer exists. -/
theorem C4_pidfile_content_roundtrip (pid : Nat) (prior : Option (List Char))
    (msg : Option String) :
    PidFile.scopeEnter pid msg true prior =
      PyOutcome.ok (some (toString pid).data) ∧
    readPidContent (toString pid).data = some pid ∧
    PidFile.scopeExit none (some (toString pid).data) = PyOutcome.ok none := by
  refine ⟨?_, ?_, rfl⟩
  · cases prior <;>
      simp [PidFile.scopeEnter, fileSeek, fileTruncate, fileWriteAppend]
  · show (String.mk (toString pid).data).toNat? = some pid
    have hmk : String.mk (toString pid).data = toString pid := rfl
    rw [hmk]
    exact toString_nat_toNat? pid

/-- Witness for C4: round-trip at pid 123 over stale prior content. -/
theorem C4_pidfile_content_roundtrip_witness :
    readPidContent (toString 123).data = some 123 :=
  (C4_pidfile_content_roundtrip 123 (some ['s', 't', 'a', 'l', 'e']) none).2.1

/-- Claim C5: failing to acquire the exclusive advisory lock terminates the
process via `sys.exit` with the configurable message — never a raised
exception the caller could catch — both at construction time (where a
successful test-lock is released and the path deleted, so the path is gone
afterwards) and at scope entry. -/
theorem C5_lock_failure_is_fatal (msg : Option String) (prior : Option (List Char))
    (pid : Nat) :
    PidFile.construct msg false prior = PyOutcome.systemExit msg ∧
    PidFile.scopeEnter pid msg false prior = PyOutcome.systemExit msg ∧
    (∀ m : String, PidFile.construct msg false prior ≠ PyOutcome.raised m) ∧
    (∀ m : String, PidFile.scopeEnter pid msg false prior ≠ PyOutcome.raised m) ∧
    PidFile.construct msg true prior = PyOutcome.ok none := by
  refine ⟨rfl, rfl, ?_, ?_, rfl⟩
  · intro m hcontra
    exact PyOutcome.noConfusion hcontra
  · intro m hcontra
    exact PyOutcome.noConfusion hcontra

/-- Witness for C5: lock contention at construction exits with the
configured message. -/
theorem C5_lock_failure_is_fatal_witness :
    PidFile.construct (some "queryserver already running") false none =
      PyOutcome.systemExit (some "queryserver already running") :=
  (C5_lock_failure_is_fatal (some "queryserver already running") none 7).1

/-- Claim C8: every error of the module's own error types (environment
errors and detach errors) constructed while another exception is being
handled carries that exception as its explicit cause. -/
theorem C8_error_cause_chain (kind : DaemonErrorKind) (args : List String)
    (exc : PyBaseExc) :
    (mkDaemonError kind args (some exc)).cause = some exc ∧
    (mkDaemonError DaemonErrorKind.osEnvironment args (some exc)).cause = some exc ∧
    (mkDaemonError DaemonErrorKind.processDetach args (some exc)).cause = some exc :=
  ⟨rfl, rfl, rfl⟩

/-- Witness for C8: an environment error raised while an `OSError` is being
handled chains it as the cause. -/
theorem C8_error_cause_chain_witness :
    (mkDaemonError DaemonErrorKind.osEnvironment
        ["Unable to change root directory"] (some ⟨"OSError 13"⟩)).cause =
      some ⟨"OSError 13"⟩ :=
  (C8_error_cause_chain DaemonErrorKind.osEnvironment
    ["Unable to change root directory"] ⟨"OSError 13"⟩).2.1

/-! ### Descriptor-closure lemmas -/

theorem closeLoop_sublist (res : Nat → CloseResult) (exclude : List Nat) :
    ∀ l : List Nat, List.Sublist (closeLoop res exclude l).1 l := by
  intro l
  induction l with
  | nil => simp [closeLoop]
  | cons fd rest ih =>
      by_cases hmem : fd ∈ exclude
      · simp only [closeLoop, hmem, if_true]
        exact ih.cons fd
      · simp only [closeLoop, hmem, if_false]
        cases res fd with
        | failure m => exact (List.nil_sublist rest).cons₂ fd
        | closed => exact ih.cons₂ fd
        | badDescriptor => exact ih.cons₂ fd

theorem closeLoop_no_failure (res : Nat → CloseResult)
    (hres : ∀ fd m, res fd ≠ CloseResult.failure m) (exclude : List Nat) :
    ∀ l : List Nat,
      closeLoop res exclude l =
        (l.filter (fun fd => decide (fd ∉ exclude)), none) := by
  intro l
  induction l with
  | nil => rfl
  | cons fd rest ih =>
      by_cases hmem : fd ∈ exclude
      · simp only [closeLoop, hmem, if_true, List.filter_cons]
        simpa [hmem] using ih
      · simp only [closeLoop, hmem, if_false, List.filter_cons]
        cases hr : res fd with
        | failure m => exact absurd hr (hres fd m)
        | closed => simp [ih, hmem]
        | badDescriptor => simp [ih, hmem]

theorem close_all_mem (res : Nat → CloseResult)
    (hres : ∀ fd m, res fd ≠ CloseResult.failure m) (hardLimit : Option Nat)
    (exclude : List Nat) (fd : Nat) :
    fd ∈ (close_all_open_files res hardLimit exclude).1 ↔
      fd < get_maximum_file_descriptors hardLimit ∧ fd ∉ exclude := by
  rw [close_all_open_files, closeLoop_no_failure res hres]
  simp [List.mem_filter, List.mem_reverse, List.mem_range]

theorem allClose_no_failure : ∀ fd m, allClose fd ≠ CloseResult.failure m := by
  intro fd m
  simp [allClose]

theorem allBadf_no_failure : ∀ fd m, allBadf fd ≠ CloseResult.failure m := by
  intro fd m
  simp [allBadf]

theorem exclude_foldl_fds (fds : List Nat) :
    ∀ acc : List Nat,
      (fds.map (fun n => some (FileItem.fd n))).foldl addExcludeItem acc =
        acc ++ fds := by
  induction fds with
  | nil => intro acc; simp
  | cons n rest ih =>
      intro acc
      simp only [List.map_cons, List.foldl_cons]
      rw [show addExcludeItem acc (some (FileItem.fd n)) = acc ++ [n] from rfl, ih]
      simp

theorem exclude_fds_shape (fds : List Nat) (s1 s2 s3 : Nat) :
    _get_exclude_file_descriptors (some (fds.map (fun n => some (FileItem.fd n))))
      (some (FileItem.fileWith s1)) (some (FileItem.fileWith s2))
      (some (FileItem.fileWith s3)) = fds ++ [s1, s2, s3] := by
  simp only [_get_exclude_file_descriptors, List.filterMap, hasFilenoAttr]
  rw [List.foldl_append, exclude_foldl_fds fds []]
  simp [addExcludeItem, _get_file_descriptor]

/-- Claim C10: the descriptor-closure sweep is bounded by the hard
`RLIMIT_NOFILE` limit, falling back to the constant 2048 when the hard
limit is unlimited; no descriptor at or above the bound is ever closed, so
descriptors numbered 2048 or higher survive a close-all when the hard
limit is infinite. -/
theorem C10_close_sweep_bounded (res : Nat → CloseResult) (hardLimit : Option Nat)
    (exclude : List Nat) (fd : Nat) :
    (fd ∈ (close_all_open_files res hardLimit exclude).1 →
      fd < get_maximum_file_descriptors hardLimit) ∧
    get_maximum_file_descriptors none = 2048 ∧
    (2048 ≤ fd → fd ∉ (close_all_open_files res none exclude).1) := by
  refine ⟨?_, rfl, ?_⟩
  · intro hmem
    have h2 : fd ∈ (List.range (get_maximum_file_descriptors hardLimit)).reverse :=
      (closeLoop_sublist res exclude _).subset hmem
    simpa using h2
  · intro hge hmem
    have h2 : fd ∈ (List.range (get_maximum_file_descriptors none)).reverse :=
      (closeLoop_sublist res exclude _).subset hmem
    have h3 : fd < 2048 := by simpa [get_maximum_file_descriptors, MAXFD] using h2
    omega

/-- Witness for C10: descriptor 2 is swept under a hard limit of 4, and the
theorem bounds it. -/
theorem C10_close_sweep_bounded_witness :
    2 < get_maximum_file_descriptors (some 4) :=
  (C10_close_sweep_bounded allClose (some 4) [] 2).1 (by decide)

/-- Claim C6: the exclude set is exactly the descriptors contributed by the
preserve-list items plus the `fileno()` descriptors of the configured
replacement streams; every descriptor in `[0, max)` outside it has
`os.close` invoked on it, iterating from the highest value down to 0;
`EBADF` during a close is ignored while any other failure surfaces as an
environment error naming the descriptor.  In particular, with preserve set
{3, 7} and replacement streams backed by {10, 11, 12}, exactly the other
descriptors in `[0, max)` are closed. -/
theorem C6_descriptor_closure (hardLimit : Option Nat) (fd : Nat)
    (hfd : fd < get_maximum_file_descriptors hardLimit) :
    exampleExclude = [3, 7, 10, 11, 12] ∧
    (fd ∈ (close_all_open_files allClose hardLimit exampleExclude).1 ↔
      fd ∉ ([3, 7, 10, 11, 12] : List Nat)) ∧
    (close_all_open_files allClose hardLimit exampleExclude).2 = none ∧
    List.Pairwise (· > ·) (close_all_open_files allClose hardLimit exampleExclude).1 ∧
    (close_all_open_files allBadf hardLimit exampleExclude).2 = none ∧
    close_all_open_files
        (fun n => if n = 5 then CloseResult.failure "EIO" else CloseResult.closed)
        (some 8) [] =
      ([7, 6, 5], some "Failed to close file descriptor 5 (EIO)") ∧
    (∀ (fds : List Nat) (s1 s2 s3 : Nat),
      _get_exclude_file_descriptors (some (fds.map (fun n => some (FileItem.fd n))))
        (some (FileItem.fileWith s1)) (some (FileItem.fileWith s2))
        (some (FileItem.fileWith s3)) = fds ++ [s1, s2, s3]) := by
  have hex : exampleExclude = [3, 7, 10, 11, 12] := rfl
  refine ⟨hex, ?_, ?_, ?_, ?_, by decide, exclude_fds_shape⟩
  · rw [close_all_mem allClose allClose_no_failure, hex]
    simp [hfd]
  · rw [close_all_open_files, closeLoop_no_failure allClose allClose_no_failure]
  · rw [close_all_open_files, closeLoop_no_failure allClose allClose_no_failure]
    exact ((List.pairwise_reverse.mpr (by simpa using List.pairwise_lt_range _)).filter _)
  · rw [close_all_open_files, closeLoop_no_failure allBadf allBadf_no_failure]

/-- Witness for C6: descriptor 5 is below the bound 16 and is closed, not
being in the exclude set. -/
theorem C6_descriptor_closure_witness :
    5 < get_maximum_file_descriptors (some 16) ∧
    (5 ∈ (close_all_open_files allClose (some 16) exampleExclude).1 ↔
      5 ∉ ([3, 7, 10, 11, 12] : List Nat)) :=
  ⟨by decide, (C6_descriptor_closure (some 16) 5 (by decide)).2.1⟩

/-! ### Signal-map lemmas -/

theorem mem_default_signal_map (platform : SignalPlatform) (e : Nat × Option String)
    (he : e ∈ make_default_signal_map platform) :
    ∃ p ∈ default_name_map, platform.lookup p.1 = some e.1 ∧ e.2 = p.2 := by
  obtain ⟨p, hp, hfp⟩ := List.mem_filterMap.mp he
  refine ⟨p, hp, ?_⟩
  cases hl : platform.lookup p.1 with
  | none => rw [hl] at hfp; cases hfp
  | some num =>
      rw [hl] at hfp
      obtain rfl := Option.some_inj.mp hfp
      exact ⟨rfl, rfl⟩

theorem signal_filterMap_length (platform : SignalPlatform) :
    ∀ l : List (String × Option String),
      (l.filterMap (fun p =>
        match platform.lookup p.1 with
        | some num => some (num, p.2)
        | none => none)).length =
      (l.filter (fun p => (platform.lookup p.1).isSome)).length := by
  intro l
  induction l with
  | nil => rfl
  | cons p rest ih =>
      cases hl : platform.lookup p.1 <;>
        simp [List.filterMap_cons, List.filter_cons, hl, ih]

/-- Claim C7: the default signal map contains entries only for the signal
names among SIGTSTP, SIGTTIN, SIGTTOU, SIGTERM that the platform defines
(each absent name is silently omitted, so the length equals the number of
defined names and building never errors); the stop-related names map to
ignore (`SIG_IGN` after resolution), SIGTERM maps to the context's
`terminate` attribute, and `terminate` raises a controlled process exit
whose message names the received signal number. -/
theorem C7_default_signal_map (platform : SignalPlatform) (n : Nat) :
    (∀ e ∈ make_default_signal_map platform,
      ∃ p ∈ default_name_map, platform.lookup p.1 = some e.1 ∧ e.2 = p.2) ∧
    (∀ p ∈ default_name_map,
      p.1 = "SIGTSTP" ∨ p.1 = "SIGTTIN" ∨ p.1 = "SIGTTOU" ∨ p.1 = "SIGTERM") ∧
    (∀ p ∈ default_name_map, p.1 ≠ "SIGTERM" → p.2 = none) ∧
    ("SIGTERM", some "terminate") ∈ default_name_map ∧
    ((make_default_signal_map platform).length =
      (default_name_map.filter (fun p => (platform.lookup p.1).isSome)).length) ∧
    (∀ e ∈ make_default_signal_map platform,
      (e.2 = none → _make_signal_handler e.2 = Handler.sigIgn) ∧
      (∀ s, e.2 = some s → s = "terminate" ∧
        _make_signal_handler e.2 = Handler.contextAttr "terminate")) ∧
    DaemonContext.terminate n =
      PyOutcome.systemExit (some ("Terminating on signal " ++ toString n)) := by
  refine ⟨mem_default_signal_map platform, by decide, by decide, by decide,
    ?_, ?_, rfl⟩
  · unfold make_default_signal_map
    exact signal_filterMap_length platform default_name_map
  · intro e he
    obtain ⟨p, hp, hlk, he2⟩ := mem_default_signal_map platform e he
    constructor
    · intro hnone
      rw [hnone]
      rfl
    · intro s hs
      have hps : p.2 = some s := by rw [← he2, hs]
      have hp4 : p = ("SIGTSTP", (none : Option String)) ∨
          p = ("SIGTTIN", (none : Option String)) ∨
          p = ("SIGTTOU", (none : Option String)) ∨
          p = ("SIGTERM", some "terminate") := by
        simpa [default_name_map] using hp
      rcases hp4 with rfl | rfl | rfl | rfl
      · exact Option.noConfusion hps
      · exact Option.noConfusion hps
      · exact Option.noConfusion hps
      · obtain rfl : "terminate" = s := Option.some_inj.mp hps
        refine ⟨rfl, ?_⟩
        rw [hs]
        rfl

/-- Witness for C7: on a platform defining only SIGTERM, the default map has
exactly one entry. -/
theorem C7_default_signal_map_witness :
    (make_default_signal_map [("SIGTERM", 15)]).length =
      (default_name_map.filter
        (fun p => (([("SIGTERM", 15)] : SignalPlatform).lookup p.1).isSome)).length :=
  (C7_default_signal_map [("SIGTERM", 15)] 15).2.2.2.2.1

end Daemon
